import Mathlib

/-!
Verification development for the FreeCAD-render repository
(`src/renderers/Cycles.py`, `src/renderers/Povray.py`).

The development is a shallow embedding of the two renderer backends:

* the render-invocation functions `Cycles.render` / `Povray.render`
  (command-line building from the preference store, width/height flag
  substitution, returned output path);
* the Cycles material dispatcher `_write_material` and its fallback;
* the light emitters (`write_arealight`, `write_sunskylight`) and the
  mesh serializers (`write_object`) of both backends.

Strings that the Python code manipulates character by character
(command lines, argument strings) are modelled as `List Char`.
The SDL text fragments produced by the `write_*` functions are modelled
as structures holding exactly the values that the source interpolates
into its format-string templates: every field of such a structure
corresponds to one hole of the template in the source.
Geometry is modelled over `ℝ` (the source uses Python floats and the
`math` library's `sqrt`, `asin`, `atan2`); colors and shader scalars
over `ℚ`.
-/

/-! ## Preference store

`App.ParamGet(...).GetString(key, "")`: a read-only string-keyed store
defaulting to the empty string.  Values are taken as `List Char`. -/

abbrev PStore : Type := String → List Char

/-! ## Decimal rendering of integers

Models Python's `str(width)` / `"{}".format(width)` for the nonnegative
integers the render functions interpolate.  Structural recursion over a
fuel argument so that concrete instances reduce definitionally. -/

def digitChar : Nat → Char
  | 0 => '0' | 1 => '1' | 2 => '2' | 3 => '3' | 4 => '4'
  | 5 => '5' | 6 => '6' | 7 => '7' | 8 => '8' | _ => '9'

def natDigitsF : Nat → Nat → List Char
  | 0, _ => []
  | fuel + 1, n =>
    if n < 10 then [digitChar n]
    else natDigitsF fuel (n / 10) ++ [digitChar (n % 10)]

def natDigits (n : Nat) : List Char := natDigitsF (n + 1) n

/-! ## Width/height flag machinery (POV-Ray)

`Povray.render` does
`re.sub(r"\+W[0-9]+", "+W{}".format(width), args)` when `"+W" in args`
(and the same for `+H`).  A match of that regular expression is a `'+'`,
the flag letter, then a maximal nonempty run of decimal digits.  Matches
never overlap (the interior of a match contains no `'+'`), so the number
of matches equals the number of positions at which `'+'`, the letter and
a digit occur consecutively; `countFlag` counts exactly those positions.
`subFlag` is the global leftmost substitution `re.sub` performs. -/

def headIsDigit : List Char → Bool
  | [] => false
  | c :: _ => c.isDigit

/-- Does the list start with the remainder of a flag match after the
initial `'+'`: the flag letter followed by at least one digit? -/
def flagTailB (L : Char) : List Char → Bool
  | [] => false
  | c :: rest => c == L && headIsDigit rest

/-- Number of matches of `\+L[0-9]+` in the character list. -/
def countFlag (L : Char) : List Char → Nat
  | [] => 0
  | c :: rest =>
    (if c == '+' && flagTailB L rest then 1 else 0) + countFlag L rest

theorem dropWhile_drop_length_lt (rest : List Char) (c : Char) :
    ((rest.drop 1).dropWhile Char.isDigit).length < (c :: rest).length := by
  have h1 : ((rest.drop 1).dropWhile Char.isDigit).length ≤ (rest.drop 1).length :=
    ((List.dropWhile_suffix Char.isDigit).sublist).length_le
  have h2 : (rest.drop 1).length = rest.length - 1 := List.length_drop ..
  simp only [List.length_cons]
  omega

/-- Global substitution of every match of `\+L[0-9]+` by `repl`,
scanning left to right and resuming after each match, as `re.sub`
does. -/
def subFlag (L : Char) (repl : List Char) : List Char → List Char
  | [] => []
  | c :: rest =>
    if c == '+' && flagTailB L rest then
      repl ++ subFlag L repl ((rest.drop 1).dropWhile Char.isDigit)
    else
      c :: subFlag L repl rest
termination_by l => l.length
decreasing_by
  all_goals first
    | apply dropWhile_drop_length_lt
    | (simp only [List.length_cons]; omega)

/-- Python's substring test `"+L" in args` (two-character pattern). -/
def startsWithPlus (L : Char) : List Char → Bool
  | c :: d :: _ => c == '+' && d == L
  | _ => false

def containsPlus (L : Char) : List Char → Bool
  | [] => false
  | c :: rest => startsWithPlus L (c :: rest) || containsPlus L rest

/-! ## `os.path.splitext`

`Povray.render` returns `os.path.splitext(project.PageResult)[0]+".png"`
when no output path was specified.  `splitextStem` is the first
component of CPython's `splitext`: the path up to the last dot of the
basename, provided the basename has a character other than `'.'` before
that dot. -/

def splitBase (p : List Char) : List Char × List Char :=
  let rev := p.reverse
  ((rev.dropWhile (fun c => c != '/')).reverse, (rev.takeWhile (fun c => c != '/')).reverse)

def stemOfBase (b : List Char) : List Char :=
  let rev := b.reverse
  if (rev.takeWhile (fun c => c != '.')).length = rev.length then b
  else
    let pre := ((rev.dropWhile (fun c => c != '.')).drop 1).reverse
    if pre.any (fun c => c != '.') then pre else b

def splitextStem (p : List Char) : List Char :=
  (splitBase p).1 ++ stemOfBase (splitBase p).2

/-! ## Render invocation

`render(project, prefix, external, output, width, height)` of each
backend.  Of the `project` handle only `project.PageResult` (the scene
file path) is used, so it is passed directly.  The result records the
command line handed to `os.system` (`none` when no process is spawned)
and the value returned to the caller. -/

structure RenderResult where
  spawned : Option (List Char)
  ret : List Char
deriving DecidableEq

/-- Replacement text `"+W{}".format(width)` (without trailing space),
used both by the substitution and by the append branch. -/
def wRepl (width : Nat) : List Char := '+' :: 'W' :: natDigits width

def hRepl (height : Nat) : List Char := '+' :: 'H' :: natDigits height

/-- The argument string built by `Povray.render` from the stored
`PovRayParameters`, mirroring the source line by line. -/
def povrayArgs (stored : List Char) (width height : Nat) (output : List Char) : List Char :=
  let args := if stored ≠ [] then stored ++ [' '] else stored
  let args :=
    if containsPlus 'W' args then subFlag 'W' (wRepl width) args
    else args ++ wRepl width ++ [' ']
  let args :=
    if containsPlus 'H' args then subFlag 'H' (hRepl height) args
    else args ++ hRepl height ++ [' ']
  if output ≠ [] then args ++ '+' :: 'O' :: output ++ [' '] else args

/-- `Povray.render`.  The `pfx0` parameter is the caller's `prefix`
argument; the source immediately overwrites it from the preference
store (`prefix = params.GetString("Prefix", "")`).  The `external`
parameter is unused by this backend, as in the source. -/
def povrayRender (params : PStore) (pfx0 : List Char) (external : Bool)
    (output : List Char) (width height : Nat) (pageResult : List Char) : RenderResult :=
  let pfx := params "Prefix"
  let pfx := if pfx ≠ [] then pfx ++ [' '] else pfx
  let rpath := params "PovRayPath"
  if rpath = [] then { spawned := none, ret := [] }
  else
    let args := povrayArgs (params "PovRayParameters") width height output
    { spawned := some (pfx ++ rpath ++ [' '] ++ args ++ pageResult)
      ret := if output ≠ [] then output else splitextStem pageResult ++ ".png".data }

/-- `Cycles.render`.  As in the source: `--output` (and `--background`
for a console run) are appended before the executable-path check;
`--width`/`--height` are appended unconditionally — this backend never
substitutes flags already present in `CyclesParameters`; the caller's
`output` argument is returned unchanged. -/
def cyclesRender (params : PStore) (pfx0 : List Char) (external : Bool)
    (output : List Char) (width height : Nat) (pageResult : List Char) : RenderResult :=
  let pfx := params "Prefix"
  let pfx := if pfx ≠ [] then pfx ++ [' '] else pfx
  let rpath := params "CyclesPath"
  let args := params "CyclesParameters"
  let args := args ++ " --output ".data ++ output
  let args := if !external then args ++ " --background".data else args
  if rpath = [] then { spawned := none, ret := [] }
  else
    let args := args ++ " --width ".data ++ natDigits width
    let args := args ++ " --height ".data ++ natDigits height
    { spawned := some (pfx ++ rpath ++ [' '] ++ args ++ [' '] ++ pageResult)
      ret := output }

/-- Count of (possibly overlapping) occurrences of `pat` in a character
list; used to exhibit duplicated command-line flags. -/
def startsWithPat : List Char → List Char → Bool
  | [], _ => true
  | _ :: _, [] => false
  | p :: ps, c :: cs => p == c && startsWithPat ps cs

def countOcc (pat : List Char) : List Char → Nat
  | [] => 0
  | c :: rest => (if startsWithPat pat (c :: rest) then 1 else 0) + countOcc pat rest

/-! ## Material data model (Cycles backend)

`Material` is the tagged union over shading models of the data model;
the dispatcher `_write_material` looks the tag up in the `MATERIALS`
table.  A tag outside the table is the `other` variant.  Color channel
values may be non-numeric (Python `float()` raises `ValueError` /
`TypeError` on them); `ChannelVal.invalid` models that case. -/

inductive ChannelVal where
  | num (q : ℚ)
  | invalid
deriving DecidableEq

/-- Python `float(x)` on a channel value: `none` models the raised
`ValueError`/`TypeError`. -/
def pyFloat : ChannelVal → Option ℚ
  | .num q => some q
  | .invalid => none

structure FCColor where
  r : ChannelVal
  g : ChannelVal
  b : ChannelVal
deriving DecidableEq

structure PassthroughData where
  renderer : String
  string : String
deriving DecidableEq

structure GlassData where
  color : FCColor
  ior : ℚ
deriving DecidableEq

structure DiffuseData where
  color : FCColor
deriving DecidableEq

structure DisneyData where
  basecolor : FCColor
  subsurface : ℚ
  metallic : ℚ
  specular : ℚ
  speculartint : ℚ
  roughness : ℚ
  anisotropic : ℚ
  sheen : ℚ
  sheentint : ℚ
  clearcoat : ℚ
  clearcoatgloss : ℚ
deriving DecidableEq

structure MixedData where
  glass : GlassData
  diffuse : DiffuseData
  transparency : ℚ
deriving DecidableEq

/-- The shading-model tag together with the variant's fields.  `other`
is any `shadertype` string outside the `MATERIALS` table. -/
inductive FCMaterialKind where
  | passthrough (p : PassthroughData)
  | glass (g : GlassData)
  | disney (d : DisneyData)
  | diffuse (d : DiffuseData)
  | mixed (m : MixedData)
  | other (tag : String)
deriving DecidableEq

structure FCMaterial where
  kind : FCMaterialKind
  default_color : FCColor
deriving DecidableEq

/-- The `material.shadertype` attribute, the key used for the
`MATERIALS` table lookup. -/
def FCMaterial.shadertype (m : FCMaterial) : String :=
  match m.kind with
  | .passthrough _ => "Passthrough"
  | .glass _ => "Glass"
  | .disney _ => "Disney"
  | .diffuse _ => "Diffuse"
  | .mixed _ => "Mixed"
  | .other tag => tag

/-- A Python value as far as `_write_material_fallback` can observe its
argument: either a color object or a material object.  Only a material
object has a `default_color` attribute; reading it on a color raises
`AttributeError`, which the fallback's `except` clause catches. -/
inductive PyVal where
  | colorV (c : FCColor)
  | materialV (m : FCMaterial)

/-- Attribute lookup `x.default_color`: `none` models the raised
`AttributeError`. -/
def getattrDefaultColor : PyVal → Option FCColor
  | .colorV _ => none
  | .materialV m => some m.default_color

/-- The only exception `_write_material` can let escape in this model:
the failed `assert material.passthrough.renderer == "Cycles"`. -/
inductive PyExc where
  | assertionError
deriving DecidableEq

/-- A Cycles SDL material fragment: one constructor per format-string
template of the source, holding exactly the values interpolated into
that template's holes. -/
inductive CyclesMatFragment where
  | passthroughFrag (template : String) (n : String) (c : FCColor)
  | glassFrag (n : String) (c : FCColor) (ior : ℚ)
  | disneyFrag (n : String) (d : DisneyData) (clearcoatRoughness : ℚ)
  | diffuseFrag (n : String) (c : FCColor)
  | mixedFrag (n : String) (m : MixedData)
  | fallbackFrag (n : String) (r : ℚ) (g : ℚ) (b : ℚ)
deriving DecidableEq

namespace Cycles

/-- Body of `_write_material_fallback(name, material)`: the `try` block
reads `material.default_color.r/.g/.b`, converts with `float` and
asserts each channel lies in `[0, 1]`; `none` models any of
`AttributeError`, `ValueError`, `TypeError`, `AssertionError` being
raised (all caught at the call site of this helper). -/
def fallbackRGBOpt (material : PyVal) : Option (ℚ × ℚ × ℚ) := do
  let dc ← getattrDefaultColor material
  let red ← pyFloat dc.r
  let grn ← pyFloat dc.g
  let blu ← pyFloat dc.b
  if 0 ≤ red ∧ red ≤ 1 ∧ 0 ≤ grn ∧ grn ≤ 1 ∧ 0 ≤ blu ∧ blu ≤ 1 then
    pure (red, grn, blu)
  else none

/-- `_write_material_fallback`: diffuse fragment with the recovered
channels, or white `(1, 1, 1)` when the `try` block raised. -/
def write_material_fallback (name : String) (material : PyVal) : CyclesMatFragment :=
  match fallbackRGBOpt material with
  | some (red, grn, blu) => .fallbackFrag name red grn blu
  | none => .fallbackFrag name 1 1 1

/-- `_write_material`: dispatch on `material.shadertype` through the
`MATERIALS` table.  A tag outside the table raises `KeyError`, which is
caught and routed to `_write_material_fallback(name,
material.default_color)` — note that the source passes the *color*
where the fallback expects the material, exactly as modelled here.  The
passthrough emitter's `assert material.passthrough.renderer ==
"Cycles"` raises `AssertionError`, which the `except KeyError` clause
does not catch. -/
def write_material (name : String) (m : FCMaterial) : Except PyExc CyclesMatFragment :=
  match m.kind with
  | .passthrough p =>
    if p.renderer = "Cycles" then .ok (.passthroughFrag p.string name m.default_color)
    else .error .assertionError
  | .glass g => .ok (.glassFrag name g.color g.ior)
  | .disney d => .ok (.disneyFrag name d (1 - d.clearcoatgloss))
  | .diffuse d => .ok (.diffuseFrag name d.color)
  | .mixed mx => .ok (.mixedFrag name mx)
  | .other _ => .ok (write_material_fallback name (.colorV m.default_color))

end Cycles

/-! ## Geometry and transforms

Vectors over `ℝ`.  `FCRotation` / `FCPlacement` model the CAD
application's rotation and placement objects through the only
operations the backends use (`multVec`, `Base`, `Rotation`).
`App.Vector.normalize()` normalizes *in place* and returns the same
object; assigning `v.Length = d` rescales the vector in place to length
`d`.  The embeddings of the `write_*` functions below therefore return,
next to the fragment, the final value of any vector argument, so that
argument mutation is observable. -/

structure Vec3 where
  x : ℝ
  y : ℝ
  z : ℝ

noncomputable def vlen (v : Vec3) : ℝ := Real.sqrt (v.x ^ 2 + v.y ^ 2 + v.z ^ 2)

noncomputable def vnormalize (v : Vec3) : Vec3 :=
  ⟨v.x / vlen v, v.y / vlen v, v.z / vlen v⟩

def vscale (k : ℝ) (v : Vec3) : Vec3 := ⟨k * v.x, k * v.y, k * v.z⟩

/-- Assignment to `App.Vector.Length`: rescale to the given length. -/
noncomputable def vecSetLength (v : Vec3) (len : ℝ) : Vec3 := vscale (len / vlen v) v

def vcross (a b : Vec3) : Vec3 :=
  ⟨a.y * b.z - a.z * b.y, a.z * b.x - a.x * b.z, a.x * b.y - a.y * b.x⟩

structure FCRotation where
  multVec : Vec3 → Vec3

structure FCPlacement where
  Base : Vec3
  Rot : FCRotation
  multVec : Vec3 → Vec3

/-- POV-Ray's coordinate convention: every vector is emitted as
`<x, z, y>` (Y and Z permuted). -/
def swapYZ (v : Vec3) : Vec3 := ⟨v.x, v.z, v.y⟩

/-- A mesh as the backends consume it: `mesh.Topology[0]` (vertices),
`mesh.Topology[1]` (triangle index triples), `mesh.getPointNormals()`
(per-vertex normals, supplied by the CAD mesh object). -/
structure FCMesh where
  vertices : List Vec3
  faces : List (Nat × Nat × Nat)
  pointNormals : List Vec3

/-- Light color triples as passed by the exporter (`color[0..2]`). -/
def RGB : Type := ℚ × ℚ × ℚ

/-! ## `atan2`

`math.atan2(a, b)` (first argument is the ordinate), as the Cycles
backend uses it for the sun azimuth. -/

noncomputable def pyAtan2 (a b : ℝ) : ℝ :=
  if 0 < b then Real.arctan (a / b)
  else if b < 0 then
    (if 0 ≤ a then Real.arctan (a / b) + Real.pi else Real.arctan (a / b) - Real.pi)
  else if 0 < a then Real.pi / 2
  else if a < 0 then -(Real.pi / 2)
  else 0

namespace Cycles

/-- Fields interpolated into one of the two `write_arealight`
templates.  `s` is the `strength` hole; `transparentVariant` records
which of the two snippets (`snippet1`/`snippet2`) was selected. -/
structure ArealightFrag where
  transparentVariant : Bool
  n : String
  c : RGB
  p : Vec3
  s : ℝ
  u : Vec3
  v : Vec3
  a : ℝ
  b : ℝ
  d : Vec3
  pts : List Vec3

/-- `Cycles.write_arealight`.  `strength = power` for the transparent
variant, `power / (size_u * size_v)` for the opaque mesh light, both
scaled by the fixed calibration factor 100. -/
noncomputable def write_arealight (name : String) (pos : FCPlacement) (size_u size_v : ℝ)
    (color : RGB) (power : ℝ) (transparent : Bool) : ArealightFrag :=
  let axis1 := pos.Rot.multVec ⟨1, 0, 0⟩
  let axis2 := pos.Rot.multVec ⟨0, 1, 0⟩
  let direction := vcross axis1 axis2
  let points :=
    [pos.multVec ⟨-size_u / 2, -size_v / 2, 0⟩,
     pos.multVec ⟨size_u / 2, -size_v / 2, 0⟩,
     pos.multVec ⟨size_u / 2, size_v / 2, 0⟩,
     pos.multVec ⟨-size_u / 2, size_v / 2, 0⟩]
  let strength := if transparent then power else power / (size_u * size_v)
  { transparentVariant := transparent
    n := name
    c := color
    p := pos.Base
    s := strength * 100
    u := axis1
    v := axis2
    a := size_u
    b := size_v
    d := direction
    pts := points }

/-- Fields interpolated into the Cycles sun-sky template: turbidity,
ground albedo, `sun_elevation` (`theta`) and `sun_rotation` (`phi`). -/
structure SunskyFrag where
  n : String
  t : ℝ
  g : ℝ
  e : ℝ
  r : ℝ

/-- `Cycles.write_sunskylight`.  The source copies the argument
(`_dir = App.Vector(direction)`) and normalizes the copy in place, so
the caller's vector is left untouched; the second component of the
result is the direction argument's value after the call.  `theta` is
`asin(_dir.z / sqrt(_dir.x**2 + _dir.y**2 + _dir.z**2))` and `phi` is
`atan2(_dir.x, _dir.y)` on the normalized copy.  (The
`sunlight(theta, turbidity)` value computed by the source is unused by
it and external to this repository's `src`.) -/
noncomputable def write_sunskylight (name : String) (direction : Vec3)
    (distance turbidity albedo : ℝ) : SunskyFrag × Vec3 :=
  let dir2 := vnormalize direction
  let theta := Real.arcsin (dir2.z / Real.sqrt (dir2.x ^ 2 + dir2.y ^ 2 + dir2.z ^ 2))
  let phi := pyAtan2 dir2.x dir2.y
  (⟨name, turbidity, albedo, theta, phi⟩, direction)

/-- Fields of the Cycles object snippet (`snippet_mat + snippet_obj`):
the material fragment, then `P` (vertex coordinates, emitted in
`x y z` order — the identity permutation), `nverts` (the string `"3"`
repeated once per face) and `verts` (the index triples). -/
structure ObjectFrag where
  shader : CyclesMatFragment
  n : String
  p : List Vec3
  nverts : List Nat
  verts : List (Nat × Nat × Nat)

/-- `Cycles.write_object`; propagates the exception `_write_material`
may raise. -/
def write_object (name : String) (mesh : FCMesh) (material : FCMaterial) :
    Except PyExc ObjectFrag := do
  let snippet_mat ← write_material name material
  let points := mesh.vertices
  let verts := mesh.faces
  let nverts := verts.map (fun _ => 3)
  pure { shader := snippet_mat, n := name, p := points, nverts := nverts, verts := verts }

end Cycles

namespace Povray

/-- Fields of the POV-Ray sun-sky snippet: only the light-source
location `o` is interpolated. -/
structure SunskyFrag where
  n : String
  o : Vec3

/-- `Povray.write_sunskylight`.  `location = direction.normalize()`
normalizes the caller's vector *in place* and returns the same object;
`location.Length = distance` then rescales that same object.  The
second component of the result is the direction argument's value after
the call: it aliases `location`, so the caller's vector is mutated. -/
noncomputable def write_sunskylight (name : String) (direction : Vec3)
    (distance turbidity : ℝ) : SunskyFrag × Vec3 :=
  let location := vnormalize direction
  let location := vecSetLength location distance
  (⟨name, location⟩, location)

/-- Fields of the POV-Ray `mesh2` block: vertex/normal/index counts and
lists (vertices and normals emitted as `<x, z, y>`, i.e. after the Y/Z
permutation), and the pigment color. -/
structure ObjectFrag where
  name : String
  len_vertices : Nat
  vertices : List Vec3
  len_normals : Nat
  normals : List Vec3
  len_indices : Nat
  indices : List (Nat × Nat × Nat)
  color : RGB

/-- `Povray.write_object` (the `alpha` parameter is unused by the
source body). -/
def write_object (name : String) (mesh : FCMesh) (color : RGB) (alpha : ℚ) : ObjectFrag :=
  let vrts := mesh.vertices.map swapYZ
  let nrms := mesh.pointNormals.map swapYZ
  let inds := mesh.faces
  { name := name
    len_vertices := vrts.length
    vertices := vrts
    len_normals := nrms.length
    normals := nrms
    len_indices := inds.length
    indices := inds
    color := color }

end Povray

/-! ## Concrete preference stores used by witnesses and counterexamples -/

/-- Store with no executable paths configured. -/
def storeEmpty : PStore := fun _ => []

/-- Store with only the Cycles executable path configured. -/
def storeCyclesOnly : PStore := fun k => if k = "CyclesPath" then "cycles".data else []

/-- Store with both executable paths configured. -/
def storeBoth : PStore := fun k =>
  if k = "CyclesPath" then "cycles".data
  else if k = "PovRayPath" then "povray".data
  else []

/-- Store whose Cycles argument string already embeds a width flag. -/
def storeCyclesWidth : PStore := fun k =>
  if k = "CyclesPath" then "cycles".data
  else if k = "CyclesParameters" then "--width 100".data
  else []

/-! # Helper lemmas -/

theorem vlen_nonneg (v : Vec3) : 0 ≤ vlen v := Real.sqrt_nonneg _

theorem sq_vlen (v : Vec3) : vlen v ^ 2 = v.x ^ 2 + v.y ^ 2 + v.z ^ 2 :=
  Real.sq_sqrt (by positivity)

theorem vlen_vnormalize (v : Vec3) (h : vlen v ≠ 0) : vlen (vnormalize v) = 1 := by
  have h2 : vlen v ^ 2 = v.x ^ 2 + v.y ^ 2 + v.z ^ 2 := sq_vlen v
  have hS : (v.x / vlen v) ^ 2 + (v.y / vlen v) ^ 2 + (v.z / vlen v) ^ 2 = 1 := by
    field_simp
    linarith
  show Real.sqrt ((v.x / vlen v) ^ 2 + (v.y / vlen v) ^ 2 + (v.z / vlen v) ^ 2) = 1
  rw [hS, Real.sqrt_one]

/-! # Claims -/

/-- C3: for every render invocation (either backend) in which the
renderer executable path read from preferences is the empty string,
`render` returns the empty output path and does not invoke any external
process (`spawned = none`). -/
theorem C3_empty_executable_path (params : PStore) (pfx0 out page : List Char)
    (ext : Bool) (w h : Nat)
    (hc : params "CyclesPath" = []) (hp : params "PovRayPath" = []) :
    cyclesRender params pfx0 ext out w h page = ⟨none, []⟩ ∧
    povrayRender params pfx0 ext out w h page = ⟨none, []⟩ := by
  constructor
  · unfold cyclesRender
    simp [hc]
  · unfold povrayRender
    simp [hp]

theorem C3_witness :
    (storeEmpty "CyclesPath" = [] ∧ storeEmpty "PovRayPath" = []) ∧
    (cyclesRender storeEmpty [] true [] 800 600 "scene.pov".data = ⟨none, []⟩ ∧
     povrayRender storeEmpty [] true [] 800 600 "scene.pov".data = ⟨none, []⟩) :=
  ⟨⟨rfl, rfl⟩, C3_empty_executable_path storeEmpty [] [] "scene.pov".data true 800 600 rfl rfl⟩

/-- C10: the command line built by `render` and the value it returns
are independent of the caller's `prefix` argument, for both backends:
the parameter is overwritten from the preference store before use. -/
theorem C10_prefix_argument_ignored (params : PStore) (p1 p2 out page : List Char)
    (ext : Bool) (w h : Nat) :
    cyclesRender params p1 ext out w h page = cyclesRender params p2 ext out w h page ∧
    povrayRender params p1 ext out w h page = povrayRender params p2 ext out w h page :=
  ⟨rfl, rfl⟩

/-- C8: for a transparent Cycles area light the emitted `strength` is
linear in `power` (doubling power doubles it); for an opaque (mesh)
area light the emitted `strength` is `power / (size_u * size_v)` up to
the fixed calibration factor 100, so doubling the area at constant
power halves it. -/
theorem C8_arealight_radiance (name : String) (pos : FCPlacement) (su sv p : ℝ)
    (color : RGB) :
    (Cycles.write_arealight name pos su sv color (2 * p) true).s
      = 2 * (Cycles.write_arealight name pos su sv color p true).s ∧
    (Cycles.write_arealight name pos su sv color p false).s
      = p / (su * sv) * 100 ∧
    (Cycles.write_arealight name pos (2 * su) sv color p false).s
      = (Cycles.write_arealight name pos su sv color p false).s / 2 := by
  refine ⟨?_, rfl, ?_⟩
  · show 2 * p * 100 = 2 * (p * 100)
    ring
  · show p / (2 * su * sv) * 100 = p / (su * sv) * 100 / 2
    rw [show (2 : ℝ) * su * sv = su * sv * 2 by ring, ← div_div]
    ring

/-- C2 (code bug): for every material whose shading-model tag is
outside the `MATERIALS` table, `_write_material` emits the fallback
fragment with *white* `(1, 1, 1)` — regardless of the material's
declared default color, valid or not — because the source passes
`material.default_color` to `_write_material_fallback`, whose body
reads `material.default_color` off its argument; the resulting
`AttributeError` is caught and the white branch always taken. -/
theorem C2_unknown_material_always_white (name tag : String) (dc : FCColor) :
    Cycles.write_material name ⟨.other tag, dc⟩ =
      .ok (.fallbackFrag name 1 1 1) := rfl

/-- C1 (counterexample): `_write_material` raises `AssertionError` to
its caller on a Passthrough material whose stored template declares a
target backend other than the invoking one. -/
theorem C1_counterexample :
    Cycles.write_material "obj"
      ⟨.passthrough ⟨"Povray", "raw"⟩, ⟨.num 1, .num 1, .num 1⟩⟩ =
      .error .assertionError := by
  unfold Cycles.write_material
  norm_num
  intro h
  exact absurd h (by decide)

/-- C1 (amended): `_write_material` never raises for any material
except a Passthrough whose stored template declares a target backend
different from the invoking backend (Cycles); in particular an unknown
shading-model tag never raises. -/
theorem C1_material_dispatch_total (name : String) (m : FCMaterial)
    (hpt : ∀ p, m.kind = .passthrough p → p.renderer = "Cycles") :
    ∃ frag, Cycles.write_material name m = .ok frag := by
  obtain ⟨k, dc⟩ := m
  cases k with
  | passthrough p =>
    refine ⟨.passthroughFrag p.string name dc, ?_⟩
    simp [Cycles.write_material, hpt p rfl]
  | glass g => exact ⟨_, rfl⟩
  | disney d => exact ⟨_, rfl⟩
  | diffuse d => exact ⟨_, rfl⟩
  | mixed mx => exact ⟨_, rfl⟩
  | other tag => exact ⟨_, rfl⟩

theorem C1_witness :
    (∀ p, (FCMaterial.mk (.diffuse ⟨⟨.num 1, .num 0, .num 0⟩⟩) ⟨.num 1, .num 1, .num 1⟩).kind
        = .passthrough p → p.renderer = "Cycles") ∧
    ∃ frag, Cycles.write_material "obj"
        ⟨.diffuse ⟨⟨.num 1, .num 0, .num 0⟩⟩, ⟨.num 1, .num 1, .num 1⟩⟩ = .ok frag :=
  ⟨fun p h => FCMaterialKind.noConfusion h,
   C1_material_dispatch_total "obj" _ (fun p h => FCMaterialKind.noConfusion h)⟩

/-- C5 (counterexample): a Cycles invocation that reaches process
invocation with no caller-specified output path returns the empty
string, not a default derived from the scene file's name: the return
value is empty, unequal to the `PageResult`-derived default
`"scene.png"`, and identical for two different scene files. -/
theorem C5_counterexample :
    (cyclesRender storeCyclesOnly [] true [] 800 600 "scene.pov".data).ret = [] ∧
    (cyclesRender storeCyclesOnly [] true [] 800 600 "scene.pov".data).spawned ≠ none ∧
    (cyclesRender storeCyclesOnly [] true [] 800 600 "other.pov".data).ret = [] ∧
    splitextStem "scene.pov".data ++ ".png".data = "scene.png".data ∧
    "scene.png".data ≠ ([] : List Char) := by
  refine ⟨rfl, by decide, rfl, by decide, by decide⟩

/-- C5 (amended): when `render` reaches process invocation, POV-Ray
returns the caller's output path if one was given and otherwise the
default `splitext(project.PageResult)[0] + ".png"`; Cycles returns the
caller's `output` argument unchanged (empty when none was given). -/
theorem C5_returned_output_path (params : PStore) (pfx0 out page : List Char)
    (ext : Bool) (w h : Nat)
    (hp : params "PovRayPath" ≠ []) (hc : params "CyclesPath" ≠ []) :
    (povrayRender params pfx0 ext out w h page).ret
      = (if out ≠ [] then out else splitextStem page ++ ".png".data) ∧
    (cyclesRender params pfx0 ext out w h page).ret = out := by
  constructor
  · unfold povrayRender
    simp [hp]
  · unfold cyclesRender
    simp [hc]

theorem C5_witness :
    (storeBoth "PovRayPath" ≠ [] ∧ storeBoth "CyclesPath" ≠ []) ∧
    ((povrayRender storeBoth [] true "o.png".data 800 600 "scene.pov".data).ret
       = (if "o.png".data ≠ [] then "o.png".data
          else splitextStem "scene.pov".data ++ ".png".data) ∧
     (cyclesRender storeBoth [] true "o.png".data 800 600 "scene.pov".data).ret
       = "o.png".data) :=
  ⟨⟨by decide, by decide⟩,
   C5_returned_output_path storeBoth [] "o.png".data "scene.pov".data true 800 600
     (by decide) (by decide)⟩

/-! ### Concrete vector lengths used by the geometry claims -/

theorem vlen_002 : vlen ⟨0, 0, 2⟩ = 2 := by
  show Real.sqrt ((0 : ℝ) ^ 2 + (0 : ℝ) ^ 2 + (2 : ℝ) ^ 2) = 2
  rw [show (0 : ℝ) ^ 2 + (0 : ℝ) ^ 2 + (2 : ℝ) ^ 2 = 2 ^ 2 by norm_num]
  exact Real.sqrt_sq (by norm_num)

theorem vlen_001 : vlen ⟨0, 0, 1⟩ = 1 := by
  show Real.sqrt ((0 : ℝ) ^ 2 + (0 : ℝ) ^ 2 + (1 : ℝ) ^ 2) = 1
  rw [show (0 : ℝ) ^ 2 + (0 : ℝ) ^ 2 + (1 : ℝ) ^ 2 = 1 by norm_num]
  exact Real.sqrt_one

theorem vlen_010 : vlen ⟨0, 1, 0⟩ = 1 := by
  show Real.sqrt ((0 : ℝ) ^ 2 + (1 : ℝ) ^ 2 + (0 : ℝ) ^ 2) = 1
  rw [show (0 : ℝ) ^ 2 + (1 : ℝ) ^ 2 + (0 : ℝ) ^ 2 = 1 by norm_num]
  exact Real.sqrt_one

theorem vnormalize_001 : vnormalize ⟨0, 0, 1⟩ = ⟨0, 0, 1⟩ := by
  unfold vnormalize
  rw [vlen_001]
  norm_num

theorem vnormalize_010 : vnormalize ⟨0, 1, 0⟩ = ⟨0, 1, 0⟩ := by
  unfold vnormalize
  rw [vlen_010]
  norm_num

/-- C6 (counterexample): POV-Ray's `write_sunskylight` mutates its
direction argument.  With `direction = (0, 0, 2)` and `distance = 10`
the caller's vector is `(0, 0, 10)` after the call, not `(0, 0, 2)`. -/
theorem C6_counterexample :
    (Povray.write_sunskylight "sun" ⟨0, 0, 2⟩ 10 2).2 ≠ (⟨0, 0, 2⟩ : Vec3) := by
  have hn : vnormalize ⟨0, 0, 2⟩ = ⟨0, 0, 1⟩ := by
    unfold vnormalize
    rw [vlen_002]
    norm_num
  have h2 : (Povray.write_sunskylight "sun" ⟨0, 0, 2⟩ 10 2).2 = ⟨0, 0, 10⟩ := by
    show vecSetLength (vnormalize ⟨0, 0, 2⟩) 10 = _
    rw [hn]
    unfold vecSetLength vscale
    rw [vlen_001]
    norm_num
  rw [h2]
  intro h
  have hz := congrArg Vec3.z h
  norm_num at hz

/-- C6 (amended): the Cycles backend's `write_sunskylight` copies its
direction argument and leaves it unchanged; the POV-Ray backend's
`write_sunskylight` normalizes the caller's vector in place and
rescales it to length `distance`, so after the call the argument equals
`(distance / |d|) · d` instead of `d`. -/
theorem C6_sunskylight_mutation (name : String) (d : Vec3)
    (distance turbidity albedo : ℝ) (h : vlen d ≠ 0) :
    (Cycles.write_sunskylight name d distance turbidity albedo).2 = d ∧
    (Povray.write_sunskylight name d distance turbidity).2
      = vscale (distance / vlen d) d := by
  refine ⟨rfl, ?_⟩
  show vecSetLength (vnormalize d) distance = vscale (distance / vlen d) d
  unfold vecSetLength
  rw [vlen_vnormalize d h]
  unfold vscale vnormalize
  simp only [Vec3.mk.injEq]
  refine ⟨?_, ?_, ?_⟩ <;> (field_simp; try ring)

theorem C6_witness :
    vlen ⟨0, 0, 2⟩ ≠ 0 ∧
    ((Cycles.write_sunskylight "sun" ⟨0, 0, 2⟩ 10 2 (1 / 2)).2 = ⟨0, 0, 2⟩ ∧
     (Povray.write_sunskylight "sun" ⟨0, 0, 2⟩ 10 2).2
       = vscale (10 / vlen ⟨0, 0, 2⟩) ⟨0, 0, 2⟩) :=
  ⟨by rw [vlen_002]; norm_num,
   C6_sunskylight_mutation "sun" ⟨0, 0, 2⟩ 10 2 (1 / 2) (by rw [vlen_002]; norm_num)⟩

/-- C7 (counterexample): for the axis-aligned direction `(0, 1, 0)` the
sun elevation computed by `Cycles.write_sunskylight` is
`asin(0 / 1) = 0`, not `π/2` — the elevation formula reads the *z*
component, which is 0 for a vector pointing along Y. -/
theorem C7_counterexample :
    (Cycles.write_sunskylight "sun" ⟨0, 1, 0⟩ 1 2 3).1.e ≠ Real.pi / 2 := by
  have he : (Cycles.write_sunskylight "sun" ⟨0, 1, 0⟩ 1 2 3).1.e = 0 := by
    show Real.arcsin ((vnormalize ⟨0, 1, 0⟩).z / vlen (vnormalize ⟨0, 1, 0⟩)) = 0
    rw [vnormalize_010]
    show Real.arcsin ((0 : ℝ) / vlen ⟨0, 1, 0⟩) = 0
    rw [zero_div, Real.arcsin_zero]
  rw [he]
  intro h0
  have hp := Real.pi_pos
  linarith

/-- C7 (amended): for every nonzero direction `d`,
`Cycles.write_sunskylight` first normalizes `d` and derives
`sun_elevation = asin(d.z / |d|)` and
`sun_rotation = atan2` of the normalized x and y components; for the
axis-aligned input `(0, 0, 1)` the computed elevation equals `π/2`. -/
theorem C7_sun_elevation (name : String) (d : Vec3) (dist t a : ℝ)
    (h : vlen d ≠ 0) :
    (Cycles.write_sunskylight name d dist t a).1.e = Real.arcsin (d.z / vlen d) ∧
    (Cycles.write_sunskylight name d dist t a).1.r
      = pyAtan2 (vnormalize d).x (vnormalize d).y ∧
    (Cycles.write_sunskylight name ⟨0, 0, 1⟩ dist t a).1.e = Real.pi / 2 := by
  refine ⟨?_, rfl, ?_⟩
  · show Real.arcsin ((vnormalize d).z / vlen (vnormalize d)) = Real.arcsin (d.z / vlen d)
    rw [vlen_vnormalize d h, div_one]
    rfl
  · show Real.arcsin ((vnormalize ⟨0, 0, 1⟩).z / vlen (vnormalize ⟨0, 0, 1⟩)) = Real.pi / 2
    rw [vnormalize_001]
    show Real.arcsin ((1 : ℝ) / vlen ⟨0, 0, 1⟩) = Real.pi / 2
    rw [vlen_001, div_one, Real.arcsin_one]

theorem C7_witness :
    vlen ⟨0, 0, 1⟩ ≠ 0 ∧
    ((Cycles.write_sunskylight "sun" ⟨0, 0, 1⟩ 1 2 3).1.e
       = Real.arcsin ((⟨0, 0, 1⟩ : Vec3).z / vlen ⟨0, 0, 1⟩) ∧
     (Cycles.write_sunskylight "sun" ⟨0, 0, 1⟩ 1 2 3).1.r
       = pyAtan2 (vnormalize ⟨0, 0, 1⟩).x (vnormalize ⟨0, 0, 1⟩).y ∧
     (Cycles.write_sunskylight "sun" ⟨0, 0, 1⟩ 1 2 3).1.e = Real.pi / 2) :=
  ⟨by rw [vlen_001]; norm_num,
   C7_sun_elevation "sun" ⟨0, 0, 1⟩ 1 2 3 (by rw [vlen_001]; norm_num)⟩

/-- Helper: the mesh-derived fields of a successful
`Cycles.write_object` result. -/
theorem cycles_write_object_ok (name : String) (mesh : FCMesh) (material : FCMaterial)
    (cfrag : Cycles.ObjectFrag)
    (hok : Cycles.write_object name mesh material = .ok cfrag) :
    cfrag.p = mesh.vertices ∧ cfrag.verts = mesh.faces ∧
    cfrag.nverts = mesh.faces.map (fun _ => 3) := by
  unfold Cycles.write_object at hok
  cases hmat : Cycles.write_material name material with
  | error e =>
    rw [hmat] at hok
    simp [Bind.bind, Except.bind] at hok
  | ok sm =>
    rw [hmat] at hok
    simp only [Bind.bind, Except.bind, Pure.pure, Except.pure, Except.ok.injEq] at hok
    rw [← hok]
    exact ⟨rfl, rfl, rfl⟩

/-- C9: for every valid mesh, both serializers emit vertex / normal /
index counts equal to the input sequence lengths, POV-Ray applies the
Y/Z swap identically to every vertex and normal, Cycles applies the
identity permutation to every vertex, and the face list is passed
through unchanged; with an empty mesh all counts are zero (the lengths
of empty inputs). -/
theorem C9_mesh_serialization (name : String) (mesh : FCMesh) (color : RGB)
    (alpha : ℚ) (material : FCMaterial) (cfrag : Cycles.ObjectFrag)
    (hvalid : ∀ f ∈ mesh.faces, f.1 < mesh.vertices.length ∧
      f.2.1 < mesh.vertices.length ∧ f.2.2 < mesh.vertices.length)
    (hok : Cycles.write_object name mesh material = .ok cfrag) :
    (Povray.write_object name mesh color alpha).len_vertices = mesh.vertices.length ∧
    (Povray.write_object name mesh color alpha).len_normals = mesh.pointNormals.length ∧
    (Povray.write_object name mesh color alpha).len_indices = mesh.faces.length ∧
    (∀ i : Nat, (Povray.write_object name mesh color alpha).vertices[i]?
       = mesh.vertices[i]?.map swapYZ) ∧
    (∀ i : Nat, (Povray.write_object name mesh color alpha).normals[i]?
       = mesh.pointNormals[i]?.map swapYZ) ∧
    (Povray.write_object name mesh color alpha).indices = mesh.faces ∧
    cfrag.p.length = mesh.vertices.length ∧
    cfrag.verts.length = mesh.faces.length ∧
    cfrag.nverts.length = mesh.faces.length ∧
    (∀ i : Nat, cfrag.p[i]? = mesh.vertices[i]?) := by
  obtain ⟨hp, hv, hn⟩ := cycles_write_object_ok name mesh material cfrag hok
  refine ⟨List.length_map .., List.length_map .., rfl, ?_, ?_, rfl, ?_, ?_, ?_, ?_⟩
  · intro i
    exact List.getElem?_map ..
  · intro i
    exact List.getElem?_map ..
  · rw [hp]
  · rw [hv]
  · rw [hn, List.length_map]
  · intro i
    rw [hp]

theorem C9_witness :
    (∀ f ∈ (FCMesh.mk [] [] []).faces, f.1 < (FCMesh.mk [] [] []).vertices.length ∧
      f.2.1 < (FCMesh.mk [] [] []).vertices.length ∧
      f.2.2 < (FCMesh.mk [] [] []).vertices.length) ∧
    Cycles.write_object "o" ⟨[], [], []⟩
        ⟨.diffuse ⟨⟨.num 1, .num 0, .num 0⟩⟩, ⟨.num 1, .num 1, .num 1⟩⟩
      = .ok ⟨.diffuseFrag "o" ⟨.num 1, .num 0, .num 0⟩, "o", [], [], []⟩ ∧
    ((Povray.write_object "o" ⟨[], [], []⟩ (1, 0, 0) 1).len_vertices
       = (FCMesh.mk [] [] []).vertices.length ∧
     (Povray.write_object "o" ⟨[], [], []⟩ (1, 0, 0) 1).len_normals
       = (FCMesh.mk [] [] []).pointNormals.length ∧
     (Povray.write_object "o" ⟨[], [], []⟩ (1, 0, 0) 1).len_indices
       = (FCMesh.mk [] [] []).faces.length ∧
     (∀ i : Nat, (Povray.write_object "o" ⟨[], [], []⟩ (1, 0, 0) 1).vertices[i]?
        = (FCMesh.mk [] [] []).vertices[i]?.map swapYZ) ∧
     (∀ i : Nat, (Povray.write_object "o" ⟨[], [], []⟩ (1, 0, 0) 1).normals[i]?
        = (FCMesh.mk [] [] []).pointNormals[i]?.map swapYZ) ∧
     (Povray.write_object "o" ⟨[], [], []⟩ (1, 0, 0) 1).indices
       = (FCMesh.mk [] [] []).faces ∧
     (Cycles.ObjectFrag.mk (.diffuseFrag "o" ⟨.num 1, .num 0, .num 0⟩) "o" [] [] []).p.length
       = (FCMesh.mk [] [] []).vertices.length ∧
     (Cycles.ObjectFrag.mk (.diffuseFrag "o" ⟨.num 1, .num 0, .num 0⟩) "o" [] [] []).verts.length
       = (FCMesh.mk [] [] []).faces.length ∧
     (Cycles.ObjectFrag.mk (.diffuseFrag "o" ⟨.num 1, .num 0, .num 0⟩) "o" [] [] []).nverts.length
       = (FCMesh.mk [] [] []).faces.length ∧
     (∀ i : Nat, (Cycles.ObjectFrag.mk (.diffuseFrag "o" ⟨.num 1, .num 0, .num 0⟩) "o" [] [] []).p[i]?
        = (FCMesh.mk [] [] []).vertices[i]?)) :=
  ⟨fun f hf => absurd hf (List.not_mem_nil f), rfl,
   C9_mesh_serialization "o" ⟨[], [], []⟩ (1, 0, 0) 1
     ⟨.diffuse ⟨⟨.num 1, .num 0, .num 0⟩⟩, ⟨.num 1, .num 1, .num 1⟩⟩
     ⟨.diffuseFrag "o" ⟨.num 1, .num 0, .num 0⟩, "o", [], [], []⟩
     (fun f hf => absurd hf (List.not_mem_nil f)) rfl⟩

/-! ### Flag-counting lemmas for the POV-Ray substitution -/

theorem digitChar_isDigit (r : Nat) : (digitChar r).isDigit = true := by
  unfold digitChar
  split <;> decide

theorem natDigitsF_all_digits : ∀ fuel n c, c ∈ natDigitsF fuel n → c.isDigit = true := by
  intro fuel
  induction fuel with
  | zero =>
    intro n c hc
    simp [natDigitsF] at hc
  | succ f ih =>
    intro n c hc
    rw [natDigitsF] at hc
    by_cases h : n < 10
    · rw [if_pos h] at hc
      simp at hc
      subst hc
      exact digitChar_isDigit n
    · rw [if_neg h] at hc
      rcases List.mem_append.mp hc with h1 | h2
      · exact ih _ _ h1
      · simp at h2
        subst h2
        exact digitChar_isDigit _

theorem natDigits_all_digits (n : Nat) : ∀ c ∈ natDigits n, c.isDigit = true :=
  fun c hc => natDigitsF_all_digits (n + 1) n c hc

theorem natDigits_ne_nil (n : Nat) : natDigits n ≠ [] := by
  unfold natDigits natDigitsF
  by_cases h : n < 10
  · rw [if_pos h]
    simp
  · rw [if_neg h]
    simp

theorem isDigit_ne_plus {c : Char} (h : c.isDigit = true) : (c == '+') = false := by
  cases hb : (c == '+') with
  | false => rfl
  | true =>
    have hc : c = '+' := by simpa using hb
    rw [hc] at h
    exact absurd h (by decide)

/-- A list may be appended on the right without affecting the flag
matches of the left part when its head is neither the flag letter nor a
digit. -/
def goodHead (L : Char) : List Char → Prop
  | [] => True
  | c :: _ => c ≠ L ∧ c.isDigit = false

theorem band_true_iff {a b : Bool} : (a && b) = true ↔ a = true ∧ b = true := by
  simp

theorem flagTailB_append (L : Char) (b : List Char) (hb : goodHead L b) :
    ∀ a : List Char, flagTailB L (a ++ b) = flagTailB L a := by
  intro a
  match a with
  | [] =>
    match b, hb with
    | [], _ => rfl
    | c :: bs, ⟨h1, _⟩ =>
      show ((c == L) && headIsDigit bs) = false
      rw [beq_eq_false_iff_ne.mpr h1, Bool.false_and]
  | [c] =>
    match b, hb with
    | [], _ => rfl
    | d :: bs, ⟨_, h2⟩ =>
      show ((c == L) && headIsDigit (d :: bs)) = ((c == L) && headIsDigit [])
      rw [show headIsDigit (d :: bs) = d.isDigit from rfl, h2]
      rfl
  | c :: d :: rest => rfl

theorem countFlag_append (L : Char) (b : List Char) (hb : goodHead L b) :
    ∀ a : List Char, countFlag L (a ++ b) = countFlag L a + countFlag L b := by
  intro a
  induction a with
  | nil => simp [countFlag]
  | cons c a' ih =>
    show countFlag L (c :: (a' ++ b)) = _
    simp only [countFlag]
    rw [flagTailB_append L b hb a', ih]
    omega

theorem countFlag_pos_containsPlus (L : Char) :
    ∀ l : List Char, 1 ≤ countFlag L l → containsPlus L l = true := by
  intro l
  induction l with
  | nil =>
    intro h
    simp [countFlag] at h
  | cons c rest ih =>
    intro h
    rw [countFlag] at h
    by_cases hb : (c == '+' && flagTailB L rest) = true
    · obtain ⟨h1, h2⟩ := band_true_iff.mp hb
      cases rest with
      | nil => simp [flagTailB] at h2
      | cons r rest2 =>
        obtain ⟨h3, _⟩ := band_true_iff.mp h2
        show (startsWithPlus L (c :: r :: rest2) || containsPlus L (r :: rest2)) = true
        show (((c == '+') && (r == L)) || containsPlus L (r :: rest2)) = true
        rw [h1, h3]
        rfl
    · rw [Bool.not_eq_true] at hb
      rw [hb] at h
      simp at h
      have hc := ih (by omega)
      show (startsWithPlus L (c :: rest) || containsPlus L rest) = true
      rw [hc, Bool.or_true]

theorem countFlag_leading_digits (M : Char) :
    ∀ ds m : List Char, (∀ c ∈ ds, c.isDigit = true) →
      countFlag M (ds ++ m) = countFlag M m := by
  intro ds
  induction ds with
  | nil =>
    intro m _
    rfl
  | cons d ds' ih =>
    intro m hds
    show countFlag M (d :: (ds' ++ m)) = _
    simp only [countFlag]
    rw [isDigit_ne_plus (hds d (by simp)), Bool.false_and]
    simp only [Bool.false_eq_true, if_false, Nat.zero_add]
    exact ih m (fun c hc => hds c (by simp [hc]))

theorem countFlag_dropWhile_digits (M : Char) (m : List Char) :
    countFlag M (m.dropWhile Char.isDigit) = countFlag M m := by
  conv_rhs => rw [← List.takeWhile_append_dropWhile (p := Char.isDigit) (l := m)]
  rw [countFlag_leading_digits M _ _ (fun c hc => List.mem_takeWhile_imp hc)]

theorem countFlag_repl_prepend (M L : Char) (hL : (L == '+') = false)
    (ds : List Char) (hne : ds ≠ []) (hds : ∀ c ∈ ds, c.isDigit = true)
    (X : List Char) :
    countFlag M (('+' :: L :: ds) ++ X)
      = (if (L == M) = true then 1 else 0) + countFlag M X := by
  show countFlag M ('+' :: L :: (ds ++ X)) = _
  have hft : flagTailB M (L :: (ds ++ X)) = (L == M) := by
    match ds, hne with
    | d :: ds', _ =>
      show ((L == M) && headIsDigit (d :: (ds' ++ X))) = (L == M)
      rw [show headIsDigit (d :: (ds' ++ X)) = d.isDigit from rfl,
        hds d (by simp), Bool.and_true]
  simp only [countFlag]
  rw [hft, hL, Bool.false_and]
  simp only [Bool.false_eq_true, if_false, Nat.zero_add]
  rw [countFlag_leading_digits M ds X hds]
  simp only [beq_self_eq_true, Bool.true_and]

theorem subFlag_head (L : Char) (t : List Char) :
    ∀ y : List Char, (subFlag L ('+' :: t) y).head? = y.head? := by
  intro y
  match y with
  | [] => simp [subFlag]
  | c :: rest =>
    simp only [subFlag]
    by_cases hb : (c == '+' && flagTailB L rest) = true
    · rw [if_pos hb]
      have hc : c = '+' := by simpa using (band_true_iff.mp hb).1
      subst hc
      rfl
    · rw [if_neg hb]
      rfl

theorem headIsDigit_congr {x y : List Char} (h : x.head? = y.head?) :
    headIsDigit x = headIsDigit y := by
  match x, y, h with
  | [], [], _ => rfl
  | a :: _, b :: _, h =>
    simp at h
    show a.isDigit = b.isDigit
    rw [h]
  | [], b :: _, h => simp at h
  | a :: _, [], h => simp at h

theorem flagTailB_subFlag (M L : Char) (t : List Char) (hM : ('+' == M) = false) :
    ∀ y, flagTailB M (subFlag L ('+' :: t) y) = flagTailB M y := by
  intro y
  match y with
  | [] => simp [subFlag]
  | r0 :: r1 =>
    simp only [subFlag]
    by_cases hb : (r0 == '+' && flagTailB L r1) = true
    · rw [if_pos hb]
      have hr0 : r0 = '+' := by simpa using (band_true_iff.mp hb).1
      subst hr0
      show (('+' == M) && headIsDigit (t ++ _)) = (('+' == M) && headIsDigit r1)
      rw [hM, Bool.false_and, Bool.false_and]
    · rw [if_neg hb]
      show ((r0 == M) && headIsDigit (subFlag L ('+' :: t) r1))
        = ((r0 == M) && headIsDigit r1)
      rw [headIsDigit_congr (subFlag_head L t r1)]

/-- Core preservation lemma: substituting every `\+L[0-9]+` match by
`'+' :: L :: ds` (with `ds` a nonempty digit string) preserves the
number of `\+M[0-9]+` matches, both for `M = L` (each replaced match is
again exactly one match) and for a different flag letter `M ≠ '+'`. -/
theorem countFlag_subFlag (M L : Char) (hM : ('+' == M) = false)
    (hL : (L == '+') = false) (ds : List Char) (hne : ds ≠ [])
    (hds : ∀ c ∈ ds, c.isDigit = true) :
    ∀ n l, l.length ≤ n →
      countFlag M (subFlag L ('+' :: L :: ds) l) = countFlag M l := by
  intro n
  induction n with
  | zero =>
    intro l hl
    have h0 : l = [] := List.length_eq_zero.mp (Nat.le_zero.mp hl)
    subst h0
    simp [subFlag]
  | succ n ih =>
    intro l hl
    match l with
    | [] => simp [subFlag]
    | c :: rest =>
      simp only [subFlag]
      by_cases hb : (c == '+' && flagTailB L rest) = true
      · rw [if_pos hb]
        obtain ⟨hc, hft⟩ := band_true_iff.mp hb
        have hceq : c = '+' := by simpa using hc
        subst hceq
        cases rest with
        | nil => simp [flagTailB] at hft
        | cons r0 rest2 =>
          obtain ⟨hr0, hhd⟩ := band_true_iff.mp hft
          have hr0eq : L = r0 := by
            have : r0 = L := by simpa using hr0
            exact this.symm
          subst hr0eq
          have hlen : (((L :: rest2).drop 1).dropWhile Char.isDigit).length ≤ n := by
            have hd : (((L :: rest2).drop 1).dropWhile Char.isDigit).length
                ≤ rest2.length :=
              ((List.dropWhile_suffix Char.isDigit).sublist).length_le
            simp only [List.length_cons] at hl
            omega
          rw [countFlag_repl_prepend M L hL ds hne hds, ih _ hlen]
          show _ = countFlag M ('+' :: L :: rest2)
          simp only [countFlag]
          rw [show flagTailB M (L :: rest2) = ((L == M) && headIsDigit rest2)
              from rfl, hhd, Bool.and_true, hL, Bool.false_and]
          simp only [Bool.false_eq_true, if_false, Nat.zero_add,
            beq_self_eq_true, Bool.true_and]
          show (if (L == M) = true then 1 else 0)
              + countFlag M (rest2.dropWhile Char.isDigit) = _
          rw [countFlag_dropWhile_digits]
      · rw [if_neg hb]
        simp only [countFlag]
        rw [flagTailB_subFlag M L (L :: ds) hM rest,
          ih rest (by simp only [List.length_cons] at hl; omega)]

theorem countFlag_subFlag_eq (M L : Char) (hM : ('+' == M) = false)
    (hL : (L == '+') = false) (ds : List Char) (hne : ds ≠ [])
    (hds : ∀ c ∈ ds, c.isDigit = true) (l : List Char) :
    countFlag M (subFlag L ('+' :: L :: ds) l) = countFlag M l :=
  countFlag_subFlag M L hM hL ds hne hds l.length l le_rfl

/-- C4 (counterexample): the Cycles backend does not substitute
width/height flags already embedded in its stored argument string.
With `CyclesParameters = "--width 100"` and a render at width 200, the
command line handed to `os.system` contains two `--width` flags. -/
theorem C4_counterexample :
    countOcc "--width ".data (storeCyclesWidth "CyclesParameters") = 1 ∧
    (cyclesRender storeCyclesWidth [] true "out.png".data 200 300
        "scene.xml".data).spawned.map (countOcc "--width ".data) = some 2 := by
  constructor
  · decide
  · decide

/-- C4 (amended): for the POV-Ray backend, when the stored argument
string contains exactly one width flag (`+W` followed by digits) and
exactly one height flag, and the injected output chunk contains none,
`render`'s pattern substitution replaces the flags in place, so the
resulting argument string still contains exactly one width flag and one
height flag — never a duplicate.  (The Cycles backend appends
`--width`/`--height` unconditionally; see the counterexample.) -/
theorem C4_width_height_substitution (stored output : List Char) (width height : Nat)
    (hsW : countFlag 'W' stored = 1) (hsH : countFlag 'H' stored = 1)
    (hoW : countFlag 'W' ('+' :: 'O' :: output ++ [' ']) = 0)
    (hoH : countFlag 'H' ('+' :: 'O' :: output ++ [' ']) = 0) :
    countFlag 'W' (povrayArgs stored width height output) = 1 ∧
    countFlag 'H' (povrayArgs stored width height output) = 1 := by
  have h0 : stored ≠ [] := by
    intro h
    rw [h] at hsW
    simp [countFlag] at hsW
  have hW0 : countFlag 'W' (stored ++ [' ']) = 1 := by
    rw [countFlag_append 'W' [' '] (by exact ⟨by decide, by decide⟩) stored, hsW]
    decide
  have hH0 : countFlag 'H' (stored ++ [' ']) = 1 := by
    rw [countFlag_append 'H' [' '] (by exact ⟨by decide, by decide⟩) stored, hsH]
    decide
  have hwsub : countFlag 'W'
      (subFlag 'W' ('+' :: 'W' :: natDigits width) (stored ++ [' '])) = 1 := by
    rw [countFlag_subFlag_eq 'W' 'W' (by decide) (by decide) (natDigits width)
      (natDigits_ne_nil width) (natDigits_all_digits width), hW0]
  have hhsub1 : countFlag 'H'
      (subFlag 'W' ('+' :: 'W' :: natDigits width) (stored ++ [' '])) = 1 := by
    rw [countFlag_subFlag_eq 'H' 'W' (by decide) (by decide) (natDigits width)
      (natDigits_ne_nil width) (natDigits_all_digits width), hH0]
  have hW2 : countFlag 'W'
      (subFlag 'H' ('+' :: 'H' :: natDigits height)
        (subFlag 'W' ('+' :: 'W' :: natDigits width) (stored ++ [' ']))) = 1 := by
    rw [countFlag_subFlag_eq 'W' 'H' (by decide) (by decide) (natDigits height)
      (natDigits_ne_nil height) (natDigits_all_digits height)]
    exact hwsub
  have hH2 : countFlag 'H'
      (subFlag 'H' ('+' :: 'H' :: natDigits height)
        (subFlag 'W' ('+' :: 'W' :: natDigits width) (stored ++ [' ']))) = 1 := by
    rw [countFlag_subFlag_eq 'H' 'H' (by decide) (by decide) (natDigits height)
      (natDigits_ne_nil height) (natDigits_all_digits height)]
    exact hhsub1
  have hcW : containsPlus 'W' (stored ++ [' ']) = true :=
    countFlag_pos_containsPlus 'W' _ hW0.ge
  have hcH : containsPlus 'H'
      (subFlag 'W' ('+' :: 'W' :: natDigits width) (stored ++ [' '])) = true :=
    countFlag_pos_containsPlus 'H' _ hhsub1.ge
  have hpa : povrayArgs stored width height output =
      (if output ≠ [] then
        subFlag 'H' ('+' :: 'H' :: natDigits height)
          (subFlag 'W' ('+' :: 'W' :: natDigits width) (stored ++ [' ']))
          ++ '+' :: 'O' :: output ++ [' ']
      else
        subFlag 'H' ('+' :: 'H' :: natDigits height)
          (subFlag 'W' ('+' :: 'W' :: natDigits width) (stored ++ [' ']))) := by
    simp only [povrayArgs, wRepl, hRepl]
    rw [if_pos h0, if_pos hcW, if_pos hcH]
  rw [hpa]
  by_cases ho : output ≠ []
  · rw [if_pos ho]
    have hoW2 : countFlag 'W' ('+' :: 'O' :: output) + countFlag 'W' [' '] = 0 := by
      rw [← countFlag_append 'W' [' '] (by exact ⟨by decide, by decide⟩)
        ('+' :: 'O' :: output)]
      exact hoW
    have hoH2 : countFlag 'H' ('+' :: 'O' :: output) + countFlag 'H' [' '] = 0 := by
      rw [← countFlag_append 'H' [' '] (by exact ⟨by decide, by decide⟩)
        ('+' :: 'O' :: output)]
      exact hoH
    constructor
    · rw [countFlag_append 'W' [' '] (by exact ⟨by decide, by decide⟩)
        (subFlag 'H' ('+' :: 'H' :: natDigits height)
          (subFlag 'W' ('+' :: 'W' :: natDigits width) (stored ++ [' ']))
          ++ '+' :: 'O' :: output),
        countFlag_append 'W' ('+' :: 'O' :: output)
          (by exact ⟨by decide, by decide⟩)
          (subFlag 'H' ('+' :: 'H' :: natDigits height)
            (subFlag 'W' ('+' :: 'W' :: natDigits width) (stored ++ [' ']))),
        hW2]
      omega
    · rw [countFlag_append 'H' [' '] (by exact ⟨by decide, by decide⟩)
        (subFlag 'H' ('+' :: 'H' :: natDigits height)
          (subFlag 'W' ('+' :: 'W' :: natDigits width) (stored ++ [' ']))
          ++ '+' :: 'O' :: output),
        countFlag_append 'H' ('+' :: 'O' :: output)
          (by exact ⟨by decide, by decide⟩)
          (subFlag 'H' ('+' :: 'H' :: natDigits height)
            (subFlag 'W' ('+' :: 'W' :: natDigits width) (stored ++ [' ']))),
        hH2]
      omega
  · rw [if_neg ho]
    exact ⟨hW2, hH2⟩

theorem C4_witness :
    (countFlag 'W' "+W800 +H600".data = 1 ∧ countFlag 'H' "+W800 +H600".data = 1 ∧
     countFlag 'W' ('+' :: 'O' :: "im.png".data ++ [' ']) = 0 ∧
     countFlag 'H' ('+' :: 'O' :: "im.png".data ++ [' ']) = 0) ∧
    (countFlag 'W' (povrayArgs "+W800 +H600".data 200 100 "im.png".data) = 1 ∧
     countFlag 'H' (povrayArgs "+W800 +H600".data 200 100 "im.png".data) = 1) :=
  ⟨⟨by decide, by decide, by decide, by decide⟩,
   C4_width_height_substitution "+W800 +H600".data "im.png".data 200 100
     (by decide) (by decide) (by decide) (by decide)⟩
